import Mathlib

/-!
Shallow embedding of the generation/caching subsystem of the beet toolchain
(`beet/toolchain/generator.py`): the `Generator` naming engine, the `Draft`
staging generator, and the cache-backed draft loop.

Python objects are modelled as follows.  Resource packs / data packs and the
per-build registry are mutable objects shared by reference between
generators, so a `Store` holds a heap of packs (addressed by `Nat`
references) and a heap of registries; a `Generator` record holds references
into those heaps, mirroring the fields of the Python dataclass.  Format
templates are modelled in parsed form, as lists of literal and placeholder
tokens, matching Python `str.format_map` syntax `\x7bname\x7d`.  The
collaborators that live outside the embedded sources (`ResourcePack` /
`DataPack` containers, the cache bucket, `stable_hash`, the lazy formatter)
are modelled from the spec, as noted on each definition.
-/

/-- A token of a format template: either literal text or a placeholder
`\x7bname\x7d`.  `str.format_map` substitutes the placeholders in order. -/
inductive Tok
  | lit (s : String)
  | ph (name : String)
  deriving DecidableEq, Repr

/-- Modelled from the spec: a namespace-file artifact type.  The library
collaborator (not under the embedded sources) distinguishes data-kind from
asset-kind artifact types via membership in `namespace_type.field_map`;
`isDataKind` records that membership. -/
structure FileTy where
  name : String
  isDataKind : Bool
  deriving DecidableEq, Repr

/-- A scope segment.  Python scopes are tuples of arbitrary hashable values:
strings, artifact types (`self[file_type]`), and the template strings used
to key increment counters. -/
inductive Seg
  | str (s : String)
  | ty (t : FileTy)
  | tmpl (t : List Tok)
  deriving DecidableEq, Repr

/-- Modelled from the spec: an artifact container (`ResourcePack` /
`DataPack` from `beet.library`, an external collaborator here).  A pack maps
string keys to artifact payloads; artifacts themselves are opaque and
modelled as strings. -/
abbrev Pack := List (String × String)

/-- Look up an association list by key (first matching entry). -/
def lookupA {β : Type} (l : List (String × β)) (k : String) : Option β :=
  (l.find? (fun e => e.1 == k)).map (fun e => e.2)

/-- Insert into an association list, overwriting any entry with the key. -/
def insertA {β : Type} (l : List (String × β)) (k : String) (v : β) :
    List (String × β) :=
  (l.filter (fun e => e.1 != k)) ++ [(k, v)]

/-- The empty pack. -/
def Pack.empty : Pack := []

/-- Artifact stored under a key, if any. -/
def Pack.get? (p : Pack) (k : String) : Option String := lookupA p k

/-- Whether the pack holds an artifact under the key. -/
def Pack.hasKey (p : Pack) (k : String) : Bool := (Pack.get? p k).isSome

/-- Python `pack[key] = artifact`: store an artifact under a key. -/
def Pack.insert (p : Pack) (k : String) (v : String) : Pack := insertA p k v

/-- Modelled from the spec: `parent.merge(other)` of the container
collaborator merges artifact-by-artifact with the incoming entry winning at
each key (last-write-wins). -/
def Pack.merge (p q : Pack) : Pack :=
  (p.filter (fun e => !(Pack.hasKey q e.1))) ++ q

/-- A registry is the Python `defaultdict(int)`: a total map from composite
keys to counters, zero by default. -/
def Registry := List Seg → Nat

/-- The fresh registry: every counter at zero. -/
def Registry.empty : Registry := fun _ => 0

/-- Python `registry[key] = v`. -/
def Registry.set (r : Registry) (k : List Seg) (v : Nat) : Registry :=
  fun k' => if k' = k then v else r k'

/-- The mutable heap shared by the generators of one build: packs and
registries addressed by reference, plus the next fresh pack address. -/
structure Store where
  packs : Nat → Pack
  regs : Nat → Registry
  next : Nat

/-- Overwrite the pack at a reference. -/
def Store.setPack (s : Store) (r : Nat) (p : Pack) : Store :=
  { s with packs := fun i => if i = r then p else s.packs i }

/-- Overwrite the registry at a reference. -/
def Store.setReg (s : Store) (r : Nat) (v : Registry) : Store :=
  { s with regs := fun i => if i = r then v else s.regs i }

/-- Allocate a fresh pack object (`ResourcePack()` / `DataPack()`),
returning the updated store and the fresh reference. -/
def Store.alloc (s : Store) (p : Pack) : Store × Nat :=
  ({ Store.setPack s s.next p with next := s.next + 1 }, s.next)

/-- The parts of the build context (`ctx`) read by the embedded operations:
the project id and the `ctx.meta` keys consulted by `get_prefix`, `format`
and `path`. -/
structure Ctx where
  project_id : String
  generate_prefix : Option String
  generate_namespace : Option String
  generate_path : Option (List Tok)
  deriving DecidableEq

/-- Modelled from the spec: `stable_hash` (from `beet.toolchain.utils`, not
under the embedded sources) is a deterministic digest of a serializable
value, with a short alternate form.  Claims depend only on it being a
function, never on the digest itself. -/
def stable_hash (v : String) (short : Bool) : String :=
  (if short then "h" else "H") ++
    toString (v.foldl (fun a c => (a * 31 + c.toNat) % 1000000007) 7)

/-- The `Generator` dataclass.  `assets`, `data`, `parent_assets`,
`parent_data` and `registry` are mutable objects shared by reference, so the
record stores heap references. -/
structure Generator where
  ctx : Ctx
  scope : List Seg
  registryRef : Nat
  assetsRef : Nat
  dataRef : Nat
  parentAssetsRef : Nat
  parentDataRef : Nat
  deriving DecidableEq

/-- Method `Generator.__getitem__`: construct a new generator with the scope
extended by one segment, every other field shared with the receiver. -/
def Generator.getitem (g : Generator) (key : Seg) : Generator :=
  { ctx := g.ctx,
    scope := g.scope ++ [key],
    registryRef := g.registryRef,
    assetsRef := g.assetsRef,
    dataRef := g.dataRef,
    parentAssetsRef := g.parentAssetsRef,
    parentDataRef := g.parentDataRef }

/-- Method `Generator.push`: run a body with the five mutable fields of the root
context generator (`self.ctx.generate`, passed here explicitly as `root`)
replaced by the receiver's, restoring the saved values in a `finally`
block.  The body transforms the root generator and reports via the boolean
whether it raised; the restoration happens on both exit paths. -/
def Generator.push_run (self root : Generator)
    (body : Generator → Generator × Bool) : Generator × Bool :=
  let root1 := { root with
    scope := self.scope,
    assetsRef := self.assetsRef,
    dataRef := self.dataRef,
    parentAssetsRef := self.parentAssetsRef,
    parentDataRef := self.parentDataRef }
  let res := body root1
  ({ res.1 with
    scope := root.scope,
    assetsRef := root.assetsRef,
    dataRef := root.dataRef,
    parentAssetsRef := root.parentAssetsRef,
    parentDataRef := root.parentDataRef }, res.2)

/-- Method `Generator.get_prefix`: join the non-empty string-typed parts of the
optional `generate_prefix` meta value and the scope with the separator. -/
def Generator.get_prefix (g : Generator) (separator : String) : String :=
  let pfx : List Seg :=
    match Ctx.generate_prefix g.ctx with
    | some s => if s = "" then [] else [Seg.str s]
    | none => []
  String.join ((pfx ++ g.scope).filterMap (fun part =>
    match part with
    | Seg.str s => if s = "" then none else some (s ++ separator)
    | _ => none))

/-- The composite registry key of `Generator.get_increment`:
`(self.ctx.project_id, *self.scope, *key)`. -/
def Generator.incrementKey (g : Generator) (key : List Seg) : List Seg :=
  Seg.str g.ctx.project_id :: (g.scope ++ key)

/-- Method `Generator.get_increment`: return the current counter for the composite
key and increment it in the shared registry. -/
def Generator.get_increment (g : Generator) (key : List Seg) (s : Store) :
    Nat × Store :=
  let k := Generator.incrementKey g key
  let reg := s.regs g.registryRef
  (reg k, Store.setReg s g.registryRef (Registry.set reg k (reg k + 1)))

/-- The error raised by `str.format_map` on an unknown placeholder (a
`KeyError`; the spec's taxonomy calls it a FormattingError). -/
inductive FmtErr
  | keyError (name : String)
  deriving DecidableEq, Repr

/-- Result of one `format` call: the formatted string (or the formatting
error), the store after the lazily triggered side effects, and how many
times the stable-hash computation was invoked (instrumentation for the
laziness contract). -/
structure FmtOut where
  res : Except FmtErr String
  store : Store
  hashCalls : Nat

/-- The substitution loop of `str.format_map` over the parsed template.
Modelled from the spec for the lazy-formatter collaborator
(`beet.toolchain.utils.LazyFormat`, not under the embedded sources): a
placeholder's deferred computation runs exactly at substitution, so the
`incr` counter bump, the prefix joins and the `stable_hash` digests happen
only when the corresponding placeholder is reached.  `fullFmt` is the whole
template, which keys the `incr` counter. -/
def formatGo (g : Generator) (fullFmt : List Tok) (hash : Option String) :
    List Tok → String → Store → Nat → FmtOut
  | [], acc, s, n => ⟨Except.ok acc, s, n⟩
  | Tok.lit t :: rest, acc, s, n => formatGo g fullFmt hash rest (acc ++ t) s n
  | Tok.ph p :: rest, acc, s, n =>
    if p = "namespace" then
      formatGo g fullFmt hash rest
        (acc ++ g.ctx.generate_namespace.getD g.ctx.project_id) s n
    else if p = "path" then
      formatGo g fullFmt hash rest (acc ++ Generator.get_prefix g "/") s n
    else if p = "scope" then
      formatGo g fullFmt hash rest (acc ++ Generator.get_prefix g ".") s n
    else if p = "incr" then
      let r := Generator.get_increment g [Seg.tmpl fullFmt] s
      formatGo g fullFmt hash rest (acc ++ toString r.1) r.2 n
    else if p = "hash" then
      match hash with
      | some v => formatGo g fullFmt hash rest (acc ++ stable_hash v false) s (n + 1)
      | none => ⟨Except.error (FmtErr.keyError p), s, n⟩
    else if p = "short_hash" then
      match hash with
      | some v => formatGo g fullFmt hash rest (acc ++ stable_hash v true) s (n + 1)
      | none => ⟨Except.error (FmtErr.keyError p), s, n⟩
    else ⟨Except.error (FmtErr.keyError p), s, n⟩

/-- Method `Generator.format`: substitute the environment of placeholders
(`namespace`, `path`, `scope`, `incr`, and `hash`/`short_hash` when a hash
value is given) into the template. -/
def Generator.format (g : Generator) (fmt : List Tok) (hash : Option String)
    (s : Store) : FmtOut :=
  formatGo g fmt hash fmt "" s 0

/-- The default `fmt` argument of `Generator.path`: `generated_` followed by
the `incr` placeholder. -/
def pathDefaultFmt : List Tok := [Tok.lit "generated_", Tok.ph "incr"]

/-- The default `generate_path` meta template: the `namespace` placeholder,
a colon, and the `path` placeholder. -/
def defaultPathTemplate : List Tok :=
  [Tok.ph "namespace", Tok.lit ":", Tok.ph "path"]

/-- Method `Generator.path`: prepend the `generate_path` meta template (default
`defaultPathTemplate`) to the caller's template and format. -/
def Generator.path (g : Generator) (fmt : List Tok) (hash : Option String)
    (s : Store) : FmtOut :=
  Generator.format g ((g.ctx.generate_path.getD defaultPathTemplate) ++ fmt) hash s

/-- A namespace-file artifact instance: its type and its serialized
content. -/
structure FileInst where
  ty : FileTy
  content : String
  deriving DecidableEq, Repr

/-- A positional argument of `Generator.__call__`: a naming template or an
artifact. -/
inductive CallArg
  | fmtArg (t : List Tok)
  | fileArg (f : FileInst)
  deriving DecidableEq

/-- How a `Generator.__call__` invocation fails.  `indexError` is the
`IndexError` raised by `args[0]` when no positional argument is supplied
(with no `render` artifact either); `typeError` covers argument shapes
fitting none of the declared overloads; `fmtError` propagates a formatting
failure. -/
inductive CallErr
  | indexError
  | typeError
  | fmtError (e : FmtErr)
  deriving DecidableEq

/-- Argument dispatch of `Generator.__call__`: resolve the artifact and the
optional naming template from the positional arguments and the `render`
keyword, mirroring the source's branches (`render` wins; two positional
arguments unpack as template and artifact; one positional argument is the
artifact; none raises `IndexError` at `args[0]`). -/
def callDispatch (args : List CallArg) (render : Option FileInst) :
    Except CallErr (Option (List Tok) × FileInst) :=
  match render with
  | some r =>
    match args with
    | [] => Except.ok (none, r)
    | CallArg.fmtArg f :: _ => Except.ok (some f, r)
    | CallArg.fileArg _ :: _ => Except.error CallErr.typeError
  | none =>
    match args with
    | [CallArg.fmtArg f, CallArg.fileArg fi] => Except.ok (some f, fi)
    | [CallArg.fileArg fi] => Except.ok (none, fi)
    | [] => Except.error CallErr.indexError
    | _ => Except.error CallErr.typeError

/-- Method `Generator.__call__`: resolve the artifact and template, default the
hash to the artifact's serialized content when neither a hash nor a render
request is given, generate the destination key via `path` in the scope
extended by the artifact type, and insert the artifact into the data or
assets pack according to the artifact type's kind.  The template-rendering
collaborator invoked on `render` is external and has no modelled effect on
the embedded state. -/
def Generator.call (g : Generator) (args : List CallArg)
    (render : Option FileInst) (hash : Option String) (s : Store) :
    Except CallErr (String × Store) :=
  match callDispatch args render with
  | Except.error e => Except.error e
  | Except.ok (fmt, fi) =>
    let hash := if hash = none && render = none then some fi.content else hash
    let child := Generator.getitem g (Seg.ty fi.ty)
    let fmtVal :=
      match fmt with
      | some f => if f = [] then pathDefaultFmt else f
      | none => pathDefaultFmt
    let out := Generator.path child fmtVal hash s
    match out.res with
    | Except.error e => Except.error (CallErr.fmtError e)
    | Except.ok key =>
      let packRef := if fi.ty.isDataKind then g.dataRef else g.assetsRef
      Except.ok (key, Store.setPack out.store packRef
        (Pack.insert (out.store.packs packRef) key fi.content))

/-- Method `Generator.draft`: a new `Draft` with the same context, scope and
registry, freshly allocated empty assets and data packs, and the receiver's
packs as parents. -/
def Generator.draft (g : Generator) (s : Store) : Generator × Store :=
  let ra := Store.alloc s Pack.empty
  let rd := Store.alloc ra.1 Pack.empty
  ({ ctx := g.ctx,
     scope := g.scope,
     registryRef := g.registryRef,
     assetsRef := ra.2,
     dataRef := rd.2,
     parentAssetsRef := g.assetsRef,
     parentDataRef := g.dataRef }, rd.1)

/-- Method `Draft.apply`: merge the working packs into the parent packs, each
guarded by the `is not` object-identity comparison of the source. -/
def Draft.apply (d : Generator) (s : Store) : Store :=
  let s1 :=
    if d.assetsRef ≠ d.parentAssetsRef then
      Store.setPack s d.parentAssetsRef
        (Pack.merge (s.packs d.parentAssetsRef) (s.packs d.assetsRef))
    else s
  if d.dataRef ≠ d.parentDataRef then
    Store.setPack s1 d.parentDataRef
      (Pack.merge (s1.packs d.parentDataRef) (s1.packs d.dataRef))
  else s1

/-- Modelled from the spec: a cache bucket (`self.ctx.cache[name]`, an
external collaborator).  It holds the string-keyed `json` metadata map
(only the `draft_key` entry is used here) and the snapshot files saved
under its directory, keyed by file name. -/
structure Bucket where
  draft_key : Option String
  files : List (String × Pack)
  deriving DecidableEq

/-- Snapshot stored under a file name, if any. -/
def Bucket.getFile? (b : Bucket) (p : String) : Option Pack := lookupA b.files p

/-- Saving `pack.save(path, overwrite=True)`: store a snapshot under a file name. -/
def Bucket.setFile (b : Bucket) (p : String) (pk : Pack) : Bucket :=
  { b with files := insertA b.files p pk }

/-- The effective key of `Draft.cache`: the Python f-string
`f"\x7bkey\x7d \x7bzipped=\x7d"`. -/
def effectiveKey (key : String) (zipped : Bool) : String :=
  key ++ " zipped=" ++ (if zipped then "True" else "False")

/-- The resource-pack snapshot file name, with the `.zip` suffix when
zipped. -/
def rpFile (zipped : Bool) : String :=
  "draft_resource_pack" ++ (if zipped then ".zip" else "")

/-- The data-pack snapshot file name, with the `.zip` suffix when zipped. -/
def dpFile (zipped : Bool) : String :=
  "draft_data_pack" ++ (if zipped then ".zip" else "")

/-- How the generator body of `Draft.cache` behaves up to its single yield
point: it either finishes before yielding (a cache hit: draft loaded,
optionally applied), fails while loading a missing snapshot file, or
suspends at `yield self` with no effect yet (a cache miss). -/
inductive CacheOutcome
  | hit (s : Store)
  | loadError (s : Store)
  | miss

/-- The pre-yield half of `Draft.cache`: compare the bucket's stored
`draft_key` with the effective key; on a match, load both persisted
snapshots into the draft's packs (`pack.load(path)` mounts the snapshot
into the pack, per the container collaborator contract of the spec),
optionally apply, and finish without yielding; otherwise suspend. -/
def cache_start (d : Generator) (bucket : Bucket) (key : String)
    (zipped ap : Bool) (s : Store) : CacheOutcome :=
  if bucket.draft_key = some (effectiveKey key zipped) then
    match Bucket.getFile? bucket (rpFile zipped) with
    | none => CacheOutcome.loadError s
    | some rp =>
      let s1 := Store.setPack s d.assetsRef (Pack.merge (s.packs d.assetsRef) rp)
      match Bucket.getFile? bucket (dpFile zipped) with
      | none => CacheOutcome.loadError s1
      | some dp =>
        let s2 := Store.setPack s1 d.dataRef (Pack.merge (s1.packs d.dataRef) dp)
        CacheOutcome.hit (if ap then Draft.apply d s2 else s2)
  else CacheOutcome.miss

/-- The post-yield half of `Draft.cache`: save each non-empty pack to its
snapshot file, store the effective key as the new `draft_key`, and
optionally apply. -/
def cache_finish (d : Generator) (bucket : Bucket) (key : String)
    (zipped ap : Bool) (s : Store) : Bucket × Store :=
  let assets := s.packs d.assetsRef
  let data := s.packs d.dataRef
  let b1 := if assets ≠ [] then Bucket.setFile bucket (rpFile zipped) assets else bucket
  let b2 := if data ≠ [] then Bucket.setFile b1 (dpFile zipped) data else b1
  let b3 := { b2 with draft_key := some (effectiveKey key zipped) }
  (b3, if ap then Draft.apply d s else s)

/-- The observable result of driving `Draft.cache` with a caller body: the
bucket and store afterwards, how many times the body was entered, and
whether the run ended in an error (a failed snapshot load, or the body
itself raising — in which case the generator is abandoned at its yield
point and the post-yield half never runs). -/
structure CacheResult where
  bucket : Bucket
  store : Store
  bodyRuns : Nat
  errored : Bool

/-- Driving `for draft in self.cache(...)`: run the pre-yield half; on a
hit the body never runs; on a miss the body runs once (returning the new
store and whether it raised), and only a normally completing body reaches
the post-yield half. -/
def cache_run (d : Generator) (bucket : Bucket) (key : String)
    (zipped ap : Bool) (body : Store → Store × Bool) (s : Store) :
    CacheResult :=
  match cache_start d bucket key zipped ap s with
  | CacheOutcome.hit s1 => ⟨bucket, s1, 0, false⟩
  | CacheOutcome.loadError s1 => ⟨bucket, s1, 0, true⟩
  | CacheOutcome.miss =>
    let r := body s
    if r.2 then ⟨bucket, r.1, 1, true⟩
    else
      let fin := cache_finish d bucket key zipped ap r.1
      ⟨fin.1, fin.2, 1, false⟩

/-- A sequence of `get_increment` calls with one extra key, each performed
by the corresponding generator of the list, threading the store; returns
the returned counter values in call order. -/
def incrRun (gs : List Generator) (k : List Seg) (s : Store) :
    List Nat × Store :=
  match gs with
  | [] => ([], s)
  | g :: rest =>
    let r := Generator.get_increment g k s
    let rs := incrRun rest k r.2
    (r.1 :: rs.1, rs.2)

/-- A concrete build context (project id `ns`, no meta overrides) used to
instantiate theorems on concrete inputs. -/
def wCtx : Ctx := ⟨"ns", none, none, none⟩

/-- A concrete generator over `wCtx` with scope `("a", "b")`. -/
def wGen : Generator := ⟨wCtx, [Seg.str "a", Seg.str "b"], 0, 1, 2, 3, 4⟩

/-- A concrete store: all packs empty, all registries fresh, ten pack
references in use. -/
def wStore : Store := ⟨fun _ => Pack.empty, fun _ => Registry.empty, 10⟩

/-- A concrete bucket holding a stored draft key and both snapshot files. -/
def wBucketHit : Bucket :=
  ⟨some "v1 zipped=False",
   [("draft_resource_pack", [("k1", "art1")]), ("draft_data_pack", [("k2", "art2")])]⟩

/-- A concrete bucket with no stored draft key and no files. -/
def wBucketMiss : Bucket := ⟨none, []⟩

/-- A concrete caller body that completes normally without touching the
store. -/
def wBody : Store → Store × Bool := fun s => (s, false)

/-- A concrete caller body that raises. -/
def wBodyAbort : Store → Store × Bool := fun s => (s, true)

theorem find?_filter_of_imp {α : Type} (l : List α) (pr f : α → Bool)
    (h : ∀ a ∈ l, pr a = true → f a = true) :
    (l.filter f).find? pr = l.find? pr := by
  induction l with
  | nil => rfl
  | cons a t ih =>
    have ht : ∀ b ∈ t, pr b = true → f b = true := fun b hb => h b (List.mem_cons_of_mem _ hb)
    by_cases hpa : pr a = true
    · have hfa : f a = true := h a (List.mem_cons_self _ _) hpa
      simp [List.filter_cons, hfa, List.find?_cons, hpa]
    · rw [Bool.not_eq_true] at hpa
      by_cases hfa : f a = true
      · simp [List.filter_cons, hfa, List.find?_cons, hpa, ih ht]
      · rw [Bool.not_eq_true] at hfa
        simp [List.filter_cons, hfa, List.find?_cons, hpa, ih ht]

theorem lookupA_filter_find?_none {β : Type} (l : List (String × β)) (k : String)
    (f : String × β → Bool) (h : ∀ a ∈ l, f a = true → ¬a.1 = k) :
    (l.filter f).find? (fun e => e.1 == k) = none := by
  refine List.find?_eq_none.mpr ?_
  intro a ha
  rw [List.mem_filter] at ha
  simpa using h a ha.1 ha.2

theorem lookupA_insertA_self {β : Type} (l : List (String × β)) (k : String) (v : β) :
    lookupA (insertA l k v) k = some v := by
  unfold lookupA insertA
  rw [List.find?_append]
  rw [lookupA_filter_find?_none l k _ (by intro a _ hf; simpa using hf)]
  simp

theorem lookupA_insertA_ne {β : Type} (l : List (String × β)) (k k' : String)
    (v : β) (h : k' ≠ k) :
    lookupA (insertA l k v) k' = lookupA l k' := by
  unfold lookupA insertA
  rw [List.find?_append]
  rw [find?_filter_of_imp l (fun e => e.1 == k') (fun e => e.1 != k)
    (by intro a _ hp; simp_all)]
  have hkk : (k == k') = false := by
    simpa using Ne.symm h
  have : ([(k, v)].find? (fun e => e.1 == k')) = none := by
    simp [List.find?, hkk]
  rw [this, Option.or_none]

theorem Pack.merge_nil_left (q : Pack) : Pack.merge [] q = q := rfl

theorem Pack.merge_nil_right (p : Pack) : Pack.merge p [] = p := by
  unfold Pack.merge
  rw [List.filter_eq_self.mpr (by intro a _; simp [Pack.hasKey, Pack.get?, lookupA])]
  simp

theorem Pack.get?_merge (p q : Pack) (k : String) :
    Pack.get? (Pack.merge p q) k =
      if Pack.hasKey q k then Pack.get? q k else Pack.get? p k := by
  by_cases hq : Pack.hasKey q k
  · rw [if_pos hq]
    unfold Pack.merge Pack.get? lookupA
    rw [List.find?_append]
    rw [lookupA_filter_find?_none p k _ ?_]
    · simp [Pack.get?, lookupA]
    · intro a _ hf he
      rw [he] at hf
      rw [hq] at hf
      simp at hf
  · rw [if_neg hq]
    unfold Pack.merge Pack.get? lookupA
    rw [List.find?_append]
    rw [find?_filter_of_imp p (fun e => e.1 == k) _ ?_]
    · have hqn : q.find? (fun e => e.1 == k) = none := by
        unfold Pack.hasKey Pack.get? lookupA at hq
        rcases hf : q.find? (fun e => e.1 == k) with _ | e
        · exact hf
        · rw [hf] at hq; simp at hq
      rw [hqn, Option.or_none]
    · intro a _ hp
      have : a.1 = k := by simpa using hp
      rw [this]
      simpa using hq

theorem Pack.mem_hasKey (q : Pack) (e : String × String) (he : e ∈ q) :
    Pack.hasKey q e.1 = true := by
  unfold Pack.hasKey Pack.get? lookupA
  have h : (q.find? (fun x => x.1 == e.1)).isSome :=
    List.find?_isSome.mpr ⟨e, he, by simp⟩
  rcases Option.isSome_iff_exists.mp h with ⟨x, hx⟩
  rw [hx]
  rfl

theorem Pack.merge_merge_self (p q : Pack) :
    Pack.merge (Pack.merge p q) q = Pack.merge p q := by
  unfold Pack.merge
  rw [List.filter_append]
  have h1 : List.filter (fun e => !Pack.hasKey q e.1) q = [] :=
    List.filter_eq_nil_iff.mpr (fun e he => by simp [Pack.mem_hasKey q e he])
  have h2 : List.filter (fun e => !Pack.hasKey q e.1)
      (List.filter (fun e => !Pack.hasKey q e.1) p) =
      List.filter (fun e => !Pack.hasKey q e.1) p := by
    rw [List.filter_filter]
    apply List.filter_congr
    intro a _
    simp
  rw [h1, h2, List.append_nil]

theorem Store.packs_setPack_same (s : Store) (r : Nat) (p : Pack) :
    (Store.setPack s r p).packs r = p := by
  simp [Store.setPack]

theorem Store.packs_setPack_other (s : Store) (r : Nat) (p : Pack) (i : Nat)
    (h : i ≠ r) :
    (Store.setPack s r p).packs i = s.packs i := by
  simp [Store.setPack, h]

theorem Store.setPack_self (s : Store) (r : Nat) :
    Store.setPack s r (s.packs r) = s := by
  unfold Store.setPack
  cases s with
  | mk packs regs nxt =>
    simp only [Store.mk.injEq, and_true, true_and]
    funext i
    by_cases h : i = r
    · rw [if_pos h, h]
    · rw [if_neg h]

theorem Draft.apply_packs_other (d : Generator) (s : Store) (i : Nat)
    (h1 : i ≠ d.parentAssetsRef) (h2 : i ≠ d.parentDataRef) :
    (Draft.apply d s).packs i = s.packs i := by
  unfold Draft.apply
  by_cases ha : d.assetsRef ≠ d.parentAssetsRef <;>
    by_cases hd : d.dataRef ≠ d.parentDataRef <;>
      simp [ha, hd, Store.packs_setPack_other, h1, h2]

theorem formatGo_regs_frame (g : Generator) (fullFmt : List Tok)
    (hash : Option String) (toks : List Tok) :
    ∀ acc s n, Tok.ph "incr" ∉ toks →
      (formatGo g fullFmt hash toks acc s n).store.regs = s.regs := by
  induction toks with
  | nil => intro acc s n _; rfl
  | cons t rest ih =>
    intro acc s n h
    have hn : Tok.ph "incr" ∉ rest := fun hm => h (List.mem_cons_of_mem _ hm)
    cases t with
    | lit l => simpa only [formatGo] using ih (acc ++ l) s n hn
    | ph p =>
      have hp : p ≠ "incr" := by
        intro he
        exact h (by simp [he])
      simp only [formatGo]
      split_ifs <;>
        first
          | exact absurd (by assumption : p = "incr") hp
          | rfl
          | exact ih _ _ _ hn
          | (cases hash with
             | none => rfl
             | some v => exact ih _ _ _ hn)

theorem formatGo_hash_frame (g : Generator) (fullFmt : List Tok)
    (hash : Option String) (toks : List Tok) :
    ∀ acc s n, Tok.ph "hash" ∉ toks → Tok.ph "short_hash" ∉ toks →
      (formatGo g fullFmt hash toks acc s n).hashCalls = n := by
  induction toks with
  | nil => intro acc s n _ _; rfl
  | cons t rest ih =>
    intro acc s n h h'
    have hn : Tok.ph "hash" ∉ rest := fun hm => h (List.mem_cons_of_mem _ hm)
    have hn' : Tok.ph "short_hash" ∉ rest := fun hm => h' (List.mem_cons_of_mem _ hm)
    cases t with
    | lit l => simpa only [formatGo] using ih (acc ++ l) s n hn hn'
    | ph p =>
      have hp : p ≠ "hash" := by
        intro he
        exact h (by simp [he])
      have hp' : p ≠ "short_hash" := by
        intro he
        exact h' (by simp [he])
      simp only [formatGo]
      split_ifs <;>
        first
          | exact absurd (by assumption : p = "hash") hp
          | exact absurd (by assumption : p = "short_hash") hp'
          | rfl
          | exact ih _ _ _ hn hn'

theorem incrRun_from (g0 : Generator) (k : List Seg) (gs : List Generator)
    (hsame : ∀ g ∈ gs, g.ctx.project_id = g0.ctx.project_id ∧
      g.scope = g0.scope ∧ g.registryRef = g0.registryRef) :
    ∀ s c, s.regs g0.registryRef (Generator.incrementKey g0 k) = c →
      (incrRun gs k s).1 = (List.range gs.length).map (fun i => c + i) := by
  induction gs with
  | nil => intro s c _; simp [incrRun]
  | cons g rest ih =>
    intro s c h
    obtain ⟨h1, h2, h3⟩ := hsame g (List.mem_cons_self _ _)
    have hkey : Generator.incrementKey g k = Generator.incrementKey g0 k := by
      simp [Generator.incrementKey, h1, h2]
    have hrest : ∀ g' ∈ rest, g'.ctx.project_id = g0.ctx.project_id ∧
        g'.scope = g0.scope ∧ g'.registryRef = g0.registryRef :=
      fun g' hg' => hsame g' (List.mem_cons_of_mem _ hg')
    have hread : s.regs g.registryRef (Generator.incrementKey g k) = c := by
      rw [h3, hkey]; exact h
    have hnext : (Generator.get_increment g k s).2.regs g0.registryRef
        (Generator.incrementKey g0 k) = c + 1 := by
      have e1 : (Generator.get_increment g k s).2.regs g0.registryRef
          = Registry.set (s.regs g.registryRef) (Generator.incrementKey g k)
              (s.regs g.registryRef (Generator.incrementKey g k) + 1) := by
        simp [Generator.get_increment, Store.setReg, h3]
      rw [e1, hread, hkey]
      simp [Registry.set]
    simp only [incrRun]
    rw [ih hrest _ (c + 1) hnext]
    simp only [Generator.get_increment, hread]
    rw [List.length_cons, List.range_succ_eq_map]
    simp only [List.map_cons, List.map_map, Nat.add_zero]
    congr 1
    apply List.map_congr_left
    intro a _
    simp only [Function.comp_apply]
    omega

/-- C7: `with_scope` (`Generator.__getitem__` / `g[key]`) returns a new
generator whose scope is the receiver's extended by the one segment and
which shares the receiver's context, registry and all four container
references; the receiver itself is a value the derivation never mutates
(`getitem` takes no store and only constructs a new record). -/
theorem C7_with_scope_extends_and_shares (g : Generator) (k : Seg) :
    (Generator.getitem g k).scope = g.scope ++ [k] ∧
    (Generator.getitem g k).ctx = g.ctx ∧
    (Generator.getitem g k).registryRef = g.registryRef ∧
    (Generator.getitem g k).assetsRef = g.assetsRef ∧
    (Generator.getitem g k).dataRef = g.dataRef ∧
    (Generator.getitem g k).parentAssetsRef = g.parentAssetsRef ∧
    (Generator.getitem g k).parentDataRef = g.parentDataRef :=
  ⟨rfl, rfl, rfl, rfl, rfl, rfl, rfl⟩

/-- C8: calling the artifact-registration entry point
(`Generator.__call__`) with no positional argument and no `render` artifact
— neither an artifact nor a destination key/template — fails with an error
(the `IndexError` raised at `args[0]`, which the spec's error taxonomy
labels InvalidArgument: missing naming input to register). -/
theorem C8_register_without_input_fails (g : Generator) (hash : Option String)
    (s : Store) :
    Generator.call g [] none hash s = Except.error CallErr.indexError := rfl

/-- C10: after `Generator.push` exits — whether the body completed normally
or raised — the root generator's `scope`, `assets`, `data`,
`parent_assets` and `parent_data` fields all equal their values from
before the push. -/
theorem C10_push_restores_root (self root : Generator)
    (body : Generator → Generator × Bool) :
    (Generator.push_run self root body).1.scope = root.scope ∧
    (Generator.push_run self root body).1.assetsRef = root.assetsRef ∧
    (Generator.push_run self root body).1.dataRef = root.dataRef ∧
    (Generator.push_run self root body).1.parentAssetsRef = root.parentAssetsRef ∧
    (Generator.push_run self root body).1.parentDataRef = root.parentDataRef :=
  ⟨rfl, rfl, rfl, rfl, rfl⟩

/-- C5: `format` never evaluates a lazy placeholder that does not appear in
the template: without an `incr` placeholder the registry heap is left
unchanged, and without a `hash` or `short_hash` placeholder the stable-hash
computation is never invoked. -/
theorem C5_format_is_lazy (g : Generator) (fmt : List Tok)
    (hash : Option String) (s : Store) :
    (Tok.ph "incr" ∉ fmt → (Generator.format g fmt hash s).store.regs = s.regs) ∧
    (Tok.ph "hash" ∉ fmt → Tok.ph "short_hash" ∉ fmt →
      (Generator.format g fmt hash s).hashCalls = 0) :=
  ⟨fun h => formatGo_regs_frame g fmt hash fmt "" s 0 h,
   fun h h' => formatGo_hash_frame g fmt hash fmt "" s 0 h h'⟩

/-- Witness for C5 at a concrete template with no lazy placeholders. -/
theorem C5_format_is_lazy_witness :
    (Tok.ph "incr" ∉ [Tok.lit "x", Tok.ph "namespace"] →
      (Generator.format wGen [Tok.lit "x", Tok.ph "namespace"] none wStore).store.regs
        = wStore.regs) ∧
    (Tok.ph "hash" ∉ [Tok.lit "x", Tok.ph "namespace"] →
      Tok.ph "short_hash" ∉ [Tok.lit "x", Tok.ph "namespace"] →
      (Generator.format wGen [Tok.lit "x", Tok.ph "namespace"] none wStore).hashCalls = 0) ∧
    Tok.ph "incr" ∉ [Tok.lit "x", Tok.ph "namespace"] ∧
    Tok.ph "hash" ∉ [Tok.lit "x", Tok.ph "namespace"] ∧
    Tok.ph "short_hash" ∉ [Tok.lit "x", Tok.ph "namespace"] :=
  ⟨(C5_format_is_lazy wGen [Tok.lit "x", Tok.ph "namespace"] none wStore).1,
   (C5_format_is_lazy wGen [Tok.lit "x", Tok.ph "namespace"] none wStore).2,
   by decide, by decide, by decide⟩

/-- C4: successive `get_increment` calls with one shared key, performed by
generators sharing the same registry, project id and scope, return exactly
`0, 1, 2, ...` in call order when the shared counter starts fresh (the
`defaultdict(int)` default): each call returns the current value and then
increments it. -/
theorem C4_get_increment_counts (gs : List Generator) (g0 : Generator)
    (k : List Seg) (s : Store)
    (hsame : ∀ g ∈ gs, g.ctx.project_id = g0.ctx.project_id ∧
      g.scope = g0.scope ∧ g.registryRef = g0.registryRef)
    (hfresh : s.regs g0.registryRef (Generator.incrementKey g0 k) = 0) :
    (incrRun gs k s).1 = List.range gs.length := by
  rw [incrRun_from g0 k gs hsame s 0 hfresh]
  simp

/-- Witness for C4: three calls on the shared fresh registry return
`[0, 1, 2]`. -/
theorem C4_get_increment_counts_witness :
    (∀ g ∈ [wGen, wGen, wGen], g.ctx.project_id = wGen.ctx.project_id ∧
      g.scope = wGen.scope ∧ g.registryRef = wGen.registryRef) ∧
    wStore.regs wGen.registryRef (Generator.incrementKey wGen [Seg.str "k"]) = 0 ∧
    (incrRun [wGen, wGen, wGen] [Seg.str "k"] wStore).1 = List.range 3 :=
  ⟨by
    intro g hg
    have h : g = wGen := by simpa using hg
    subst h
    exact ⟨rfl, rfl, rfl⟩,
   rfl,
   C4_get_increment_counts [wGen, wGen, wGen] wGen [Seg.str "k"] wStore
     (by
       intro g hg
       have h : g = wGen := by simpa using hg
       subst h
       exact ⟨rfl, rfl, rfl⟩) rfl⟩

/-- C6: for a generator with scope `("a", "b")`, namespace `ns` (the
project id, with no meta overrides) and a fresh shared registry, the first
`path()` call with the default template yields `ns:a/b/generated_0` and a
second identical call on the same registry yields `ns:a/b/generated_1`. -/
theorem C6_path_default_sequence (rr ra rd rpa rpd : Nat) (s : Store)
    (hreg : s.regs rr = Registry.empty) :
    (Generator.path ⟨wCtx, [Seg.str "a", Seg.str "b"], rr, ra, rd, rpa, rpd⟩
        pathDefaultFmt none s).res = Except.ok "ns:a/b/generated_0" ∧
    (Generator.path ⟨wCtx, [Seg.str "a", Seg.str "b"], rr, ra, rd, rpa, rpd⟩
        pathDefaultFmt none
        (Generator.path ⟨wCtx, [Seg.str "a", Seg.str "b"], rr, ra, rd, rpa, rpd⟩
          pathDefaultFmt none s).store).res = Except.ok "ns:a/b/generated_1" := by
  constructor
  · simp [Generator.path, Generator.format, formatGo, Generator.get_increment,
      Generator.get_prefix, Store.setReg, Registry.set, wCtx, pathDefaultFmt,
      defaultPathTemplate, hreg, Registry.empty]
    rfl
  · simp [Generator.path, Generator.format, formatGo, Generator.get_increment,
      Generator.get_prefix, Store.setReg, Registry.set, wCtx, pathDefaultFmt,
      defaultPathTemplate, hreg, Registry.empty]
    rfl

/-- Witness for C6 at the concrete fresh store. -/
theorem C6_path_default_sequence_witness :
    wStore.regs 0 = Registry.empty ∧
    ((Generator.path ⟨wCtx, [Seg.str "a", Seg.str "b"], 0, 1, 2, 3, 4⟩
        pathDefaultFmt none wStore).res = Except.ok "ns:a/b/generated_0" ∧
     (Generator.path ⟨wCtx, [Seg.str "a", Seg.str "b"], 0, 1, 2, 3, 4⟩
        pathDefaultFmt none
        (Generator.path ⟨wCtx, [Seg.str "a", Seg.str "b"], 0, 1, 2, 3, 4⟩
          pathDefaultFmt none wStore).store).res = Except.ok "ns:a/b/generated_1") :=
  ⟨rfl, C6_path_default_sequence 0 1 2 3 4 wStore rfl⟩

theorem Store.setPack_setPack_same (s : Store) (r : Nat) (p q : Pack) :
    Store.setPack (Store.setPack s r p) r q = Store.setPack s r q := by
  unfold Store.setPack
  cases s with
  | mk packs regs nxt =>
    simp only [Store.mk.injEq, and_true, true_and]
    funext i
    by_cases h : i = r <;> simp [h]

theorem draft_gen_eq (g : Generator) (s : Store) :
    (Generator.draft g s).1 =
      ⟨g.ctx, g.scope, g.registryRef, s.next, s.next + 1, g.assetsRef, g.dataRef⟩ := rfl

theorem draft_packs (g : Generator) (s : Store) (i : Nat) :
    (Generator.draft g s).2.packs i =
      if i = s.next + 1 then Pack.empty else if i = s.next then Pack.empty
        else s.packs i := rfl

/-- C3: a draft populated with artifact `A` under key `K`, once applied,
leaves the parent data pack containing `A` at `K`; and a second `apply()`
call is a no-op — the store is left exactly as the first `apply()` left it,
so `A`'s presence in the parent is not duplicated. -/
theorem C3_draft_apply_roundtrip (g d : Generator) (s s1 : Store) (K A : String)
    (hdraft : Generator.draft g s = (d, s1))
    (hva : g.assetsRef < s.next) (hvd : g.dataRef < s.next) :
    Pack.get? ((Draft.apply d (Store.setPack s1 d.dataRef
        (Pack.insert (s1.packs d.dataRef) K A))).packs d.parentDataRef) K = some A ∧
    Draft.apply d (Draft.apply d (Store.setPack s1 d.dataRef
        (Pack.insert (s1.packs d.dataRef) K A))) =
      Draft.apply d (Store.setPack s1 d.dataRef
        (Pack.insert (s1.packs d.dataRef) K A)) := by
  obtain ⟨hd, hs1⟩ : (Generator.draft g s).1 = d ∧ (Generator.draft g s).2 = s1 := by
    rw [hdraft]; exact ⟨rfl, rfl⟩
  subst hd
  subst hs1
  rw [draft_gen_eq]
  have hne1 : s.next ≠ g.assetsRef := by omega
  have hne2 : s.next + 1 ≠ g.dataRef := by omega
  have hne3 : g.dataRef ≠ s.next + 1 := by omega
  have hne4 : g.dataRef ≠ s.next := by omega
  have hne5 : g.assetsRef ≠ s.next := by omega
  have hne6 : s.next ≠ s.next + 1 := by omega
  have hne7 : s.next + 1 ≠ s.next := by omega
  have hne8 : s.next ≠ g.dataRef := by omega
  have hne9 : s.next + 1 ≠ g.assetsRef := by omega
  have hne10 : g.assetsRef ≠ s.next + 1 := by omega
  have hpop : Pack.insert ((Generator.draft g s).2.packs (s.next + 1)) K A = [(K, A)] := by
    rw [draft_packs]
    simp [Pack.insert, insertA, Pack.empty]
  have hkk : Pack.hasKey [(K, A)] K = true := by
    simp [Pack.hasKey, Pack.get?, lookupA]
  have hgk : Pack.get? [(K, A)] K = some A := by
    simp [Pack.get?, lookupA]
  constructor
  · simp only [hpop]
    simp [Draft.apply, ne_eq, hne1, hne2, hne3, hne4, hne5, hne6, hne7,
      Store.packs_setPack_same, Store.packs_setPack_other, Store.setPack_self,
      Store.setPack_setPack_same, draft_packs, Pack.empty, ite_self,
      Pack.merge_nil_right, Pack.merge_merge_self, Pack.get?_merge, hkk, hgk]
  · simp only [hpop]
    simp [Draft.apply, ne_eq, hne1, hne2, hne3, hne4, hne5, hne6, hne7, hne8,
      hne9, hne10,
      Store.packs_setPack_same, Store.packs_setPack_other, Store.setPack_self,
      Store.setPack_setPack_same, draft_packs, Pack.empty, ite_self,
      Pack.merge_nil_right, Pack.merge_merge_self, Pack.get?_merge, hkk, hgk]

/-- Witness for C3 at concrete inputs. -/
theorem C3_draft_apply_roundtrip_witness :
    Generator.draft wGen wStore =
      ((Generator.draft wGen wStore).1, (Generator.draft wGen wStore).2) ∧
    wGen.assetsRef < wStore.next ∧ wGen.dataRef < wStore.next ∧
    (Pack.get? ((Draft.apply (Generator.draft wGen wStore).1
        (Store.setPack (Generator.draft wGen wStore).2
          (Generator.draft wGen wStore).1.dataRef
          (Pack.insert ((Generator.draft wGen wStore).2.packs
            (Generator.draft wGen wStore).1.dataRef) "kk" "vv"))).packs
        (Generator.draft wGen wStore).1.parentDataRef) "kk" = some "vv" ∧
     Draft.apply (Generator.draft wGen wStore).1
        (Draft.apply (Generator.draft wGen wStore).1
          (Store.setPack (Generator.draft wGen wStore).2
            (Generator.draft wGen wStore).1.dataRef
            (Pack.insert ((Generator.draft wGen wStore).2.packs
              (Generator.draft wGen wStore).1.dataRef) "kk" "vv"))) =
      Draft.apply (Generator.draft wGen wStore).1
        (Store.setPack (Generator.draft wGen wStore).2
          (Generator.draft wGen wStore).1.dataRef
          (Pack.insert ((Generator.draft wGen wStore).2.packs
            (Generator.draft wGen wStore).1.dataRef) "kk" "vv"))) :=
  ⟨rfl, by decide, by decide,
   C3_draft_apply_roundtrip wGen (Generator.draft wGen wStore).1 wStore
     (Generator.draft wGen wStore).2 "kk" "vv" rfl (by decide) (by decide)⟩

/-- C9: a cache-miss invocation of `Draft.cache` that suspends at its single
yield point and is never resumed (the caller's body raises) leaves the
cache bucket's state unchanged: no snapshot file is saved and the stored
`draft_key` metadata is not updated. -/
theorem C9_abandoned_miss_leaves_bucket (d : Generator) (bucket : Bucket)
    (key : String) (zipped ap : Bool) (body : Store → Store × Bool)
    (s s2 : Store)
    (hkey : bucket.draft_key ≠ some (effectiveKey key zipped))
    (hbody : body s = (s2, true)) :
    cache_run d bucket key zipped ap body s = ⟨bucket, s2, 1, true⟩ := by
  simp [cache_run, cache_start, hkey, hbody]

/-- Witness for C9 at concrete inputs. -/
theorem C9_abandoned_miss_leaves_bucket_witness :
    wBucketMiss.draft_key ≠ some (effectiveKey "v1" false) ∧
    wBodyAbort wStore = (wStore, true) ∧
    cache_run wGen wBucketMiss "v1" false false wBodyAbort wStore =
      ⟨wBucketMiss, wStore, 1, true⟩ :=
  ⟨by decide, rfl,
   C9_abandoned_miss_leaves_bucket wGen wBucketMiss "v1" false false wBodyAbort
     wStore wStore (by decide) rfl⟩

/-- C1: when the bucket's stored `draft_key` equals the effective key
composed from the caller's key and the zipped flag, and the two persisted
snapshots are present, `Draft.cache` never executes the caller's body (zero
yields), leaves the bucket untouched, loads the two persisted snapshots
into the draft's assets and data packs, and applies exactly when the apply
flag is set. -/
theorem C1_cache_hit_skips_body (g d : Generator) (s s1 : Store) (bucket : Bucket)
    (key : String) (zipped ap : Bool) (body : Store → Store × Bool) (rp dp : Pack)
    (hdraft : Generator.draft g s = (d, s1))
    (hva : g.assetsRef < s.next) (hvd : g.dataRef < s.next)
    (hkey : bucket.draft_key = some (effectiveKey key zipped))
    (hrp : Bucket.getFile? bucket (rpFile zipped) = some rp)
    (hdp : Bucket.getFile? bucket (dpFile zipped) = some dp) :
    (cache_run d bucket key zipped ap body s1).bodyRuns = 0 ∧
    (cache_run d bucket key zipped ap body s1).bucket = bucket ∧
    (cache_run d bucket key zipped ap body s1).store.packs d.assetsRef = rp ∧
    (cache_run d bucket key zipped ap body s1).store.packs d.dataRef = dp ∧
    (cache_run d bucket key zipped ap body s1).store =
      (if ap then Draft.apply d (Store.setPack (Store.setPack s1 d.assetsRef rp)
          d.dataRef dp)
        else Store.setPack (Store.setPack s1 d.assetsRef rp) d.dataRef dp) := by
  obtain ⟨hd, hs1⟩ : (Generator.draft g s).1 = d ∧ (Generator.draft g s).2 = s1 := by
    rw [hdraft]; exact ⟨rfl, rfl⟩
  subst hd
  subst hs1
  rw [draft_gen_eq]
  have hne1 : s.next ≠ g.assetsRef := by omega
  have hne2 : s.next + 1 ≠ g.dataRef := by omega
  have hne6 : s.next ≠ s.next + 1 := by omega
  have hne7 : s.next + 1 ≠ s.next := by omega
  have hne8 : s.next ≠ g.dataRef := by omega
  have hne9 : s.next + 1 ≠ g.assetsRef := by omega
  have hrun : cache_run
      (⟨g.ctx, g.scope, g.registryRef, s.next, s.next + 1, g.assetsRef, g.dataRef⟩ : Generator)
      bucket key zipped ap body (Generator.draft g s).2 =
      ⟨bucket,
       (if ap then Draft.apply
          (⟨g.ctx, g.scope, g.registryRef, s.next, s.next + 1, g.assetsRef, g.dataRef⟩ : Generator)
          (Store.setPack (Store.setPack (Generator.draft g s).2 s.next rp) (s.next + 1) dp)
        else Store.setPack (Store.setPack (Generator.draft g s).2 s.next rp) (s.next + 1) dp),
       0, false⟩ := by
    simp [cache_run, cache_start, hkey, hrp, hdp, draft_packs, hne6, hne7,
      Store.packs_setPack_same, Store.packs_setPack_other, Pack.empty,
      Pack.merge_nil_left]
  rw [hrun]
  refine ⟨rfl, rfl, ?_, ?_, rfl⟩
  · by_cases hap : ap
    · rw [if_pos hap]
      rw [Draft.apply_packs_other _ _ _ (by simpa using hne1) (by simpa using hne8)]
      rw [Store.packs_setPack_other _ _ _ _ hne6, Store.packs_setPack_same]
    · rw [if_neg hap]
      rw [Store.packs_setPack_other _ _ _ _ hne6, Store.packs_setPack_same]
  · by_cases hap : ap
    · rw [if_pos hap]
      rw [Draft.apply_packs_other _ _ _ (by simpa using hne9) (by simpa using hne2)]
      rw [Store.packs_setPack_same]
    · rw [if_neg hap]
      rw [Store.packs_setPack_same]

/-- Witness for C1 at concrete inputs (apply flag off). -/
theorem C1_cache_hit_skips_body_witness :
    Generator.draft wGen wStore =
      ((Generator.draft wGen wStore).1, (Generator.draft wGen wStore).2) ∧
    wGen.assetsRef < wStore.next ∧ wGen.dataRef < wStore.next ∧
    wBucketHit.draft_key = some (effectiveKey "v1" false) ∧
    Bucket.getFile? wBucketHit (rpFile false) = some [("k1", "art1")] ∧
    Bucket.getFile? wBucketHit (dpFile false) = some [("k2", "art2")] ∧
    ((cache_run (Generator.draft wGen wStore).1 wBucketHit "v1" false false wBody
        (Generator.draft wGen wStore).2).bodyRuns = 0 ∧
     (cache_run (Generator.draft wGen wStore).1 wBucketHit "v1" false false wBody
        (Generator.draft wGen wStore).2).bucket = wBucketHit ∧
     (cache_run (Generator.draft wGen wStore).1 wBucketHit "v1" false false wBody
        (Generator.draft wGen wStore).2).store.packs
          (Generator.draft wGen wStore).1.assetsRef = [("k1", "art1")] ∧
     (cache_run (Generator.draft wGen wStore).1 wBucketHit "v1" false false wBody
        (Generator.draft wGen wStore).2).store.packs
          (Generator.draft wGen wStore).1.dataRef = [("k2", "art2")] ∧
     (cache_run (Generator.draft wGen wStore).1 wBucketHit "v1" false false wBody
        (Generator.draft wGen wStore).2).store =
      (if false then Draft.apply (Generator.draft wGen wStore).1
          (Store.setPack (Store.setPack (Generator.draft wGen wStore).2
            (Generator.draft wGen wStore).1.assetsRef [("k1", "art1")])
            (Generator.draft wGen wStore).1.dataRef [("k2", "art2")])
        else Store.setPack (Store.setPack (Generator.draft wGen wStore).2
            (Generator.draft wGen wStore).1.assetsRef [("k1", "art1")])
            (Generator.draft wGen wStore).1.dataRef [("k2", "art2")])) :=
  ⟨rfl, by decide, by decide, by decide, by decide, by decide,
   C1_cache_hit_skips_body wGen (Generator.draft wGen wStore).1 wStore
     (Generator.draft wGen wStore).2 wBucketHit "v1" false false wBody
     [("k1", "art1")] [("k2", "art2")] rfl (by decide) (by decide) (by decide)
     (by decide) (by decide)⟩

theorem rpFile_ne_dpFile (z : Bool) : rpFile z ≠ dpFile z := by
  cases z <;> decide

theorem cache_run_stored_key_no_body (d : Generator) (b : Bucket) (key : String)
    (zipped ap : Bool) (body : Store → Store × Bool) (s : Store)
    (hk : b.draft_key = some (effectiveKey key zipped)) :
    (cache_run d b key zipped ap body s).bodyRuns = 0 := by
  unfold cache_run cache_start
  rw [hk]
  rcases hf1 : Bucket.getFile? b (rpFile zipped) with _ | rp
  · simp [hf1]
  · rcases hf2 : Bucket.getFile? b (dpFile zipped) with _ | dp <;> simp [hf1, hf2]

/-- C2: when the bucket's stored `draft_key` differs from the effective
composed key, `Draft.cache` yields exactly once; on resumption it persists
each non-empty draft pack to its snapshot file, stores the effective
composed key (the caller's key plus the zipped flag, e.g.
`v1 zipped=False`) as the new `draft_key`, applies exactly when the apply
flag is set, and any subsequent call with the same key and zipped flag
takes the hit branch and never runs its body. -/
theorem C2_cache_miss_persists_draft (d : Generator) (s1 : Store) (bucket : Bucket)
    (key : String) (zipped ap : Bool) (body : Store → Store × Bool) (s2 : Store)
    (hkey : bucket.draft_key ≠ some (effectiveKey key zipped))
    (hbody : body s1 = (s2, false)) :
    (cache_run d bucket key zipped ap body s1).bodyRuns = 1 ∧
    (cache_run d bucket key zipped ap body s1).bucket.draft_key =
      some (effectiveKey key zipped) ∧
    (s2.packs d.assetsRef ≠ [] →
      Bucket.getFile? (cache_run d bucket key zipped ap body s1).bucket
        (rpFile zipped) = some (s2.packs d.assetsRef)) ∧
    (s2.packs d.dataRef ≠ [] →
      Bucket.getFile? (cache_run d bucket key zipped ap body s1).bucket
        (dpFile zipped) = some (s2.packs d.dataRef)) ∧
    (cache_run d bucket key zipped ap body s1).store =
      (if ap then Draft.apply d s2 else s2) ∧
    (∀ d' body' ap' s', (cache_run d'
        (cache_run d bucket key zipped ap body s1).bucket
        key zipped ap' body' s').bodyRuns = 0) := by
  have hrun : cache_run d bucket key zipped ap body s1 =
      ⟨(cache_finish d bucket key zipped ap s2).1,
       (cache_finish d bucket key zipped ap s2).2, 1, false⟩ := by
    simp [cache_run, cache_start, hkey, hbody]
  rw [hrun]
  have hdk : (cache_finish d bucket key zipped ap s2).1.draft_key =
      some (effectiveKey key zipped) := rfl
  refine ⟨rfl, hdk, ?_, ?_, rfl, ?_⟩
  · intro hne
    show Bucket.getFile? (cache_finish d bucket key zipped ap s2).1 (rpFile zipped)
      = some (s2.packs d.assetsRef)
    unfold cache_finish
    simp only [if_pos hne]
    by_cases hd : s2.packs d.dataRef ≠ []
    · simp only [if_pos hd, Bucket.getFile?, Bucket.setFile]
      rw [lookupA_insertA_ne _ _ _ _ (rpFile_ne_dpFile zipped)]
      exact lookupA_insertA_self _ _ _
    · simp only [if_neg hd, Bucket.getFile?, Bucket.setFile]
      exact lookupA_insertA_self _ _ _
  · intro hne
    show Bucket.getFile? (cache_finish d bucket key zipped ap s2).1 (dpFile zipped)
      = some (s2.packs d.dataRef)
    unfold cache_finish
    simp only [if_pos hne, Bucket.getFile?, Bucket.setFile]
    by_cases ha : s2.packs d.assetsRef ≠ [] <;>
      [simp only [if_pos ha]; simp only [if_neg ha]] <;>
      exact lookupA_insertA_self _ _ _
  · intro d' body' ap' s'
    exact cache_run_stored_key_no_body d' _ key zipped ap' body' s' hdk

/-- Witness for C2 at concrete inputs. -/
theorem C2_cache_miss_persists_draft_witness :
    wBucketMiss.draft_key ≠ some (effectiveKey "v1" false) ∧
    wBody wStore = (wStore, false) ∧
    ((cache_run wGen wBucketMiss "v1" false false wBody wStore).bodyRuns = 1 ∧
     (cache_run wGen wBucketMiss "v1" false false wBody wStore).bucket.draft_key =
       some (effectiveKey "v1" false) ∧
     (wStore.packs wGen.assetsRef ≠ [] →
       Bucket.getFile? (cache_run wGen wBucketMiss "v1" false false wBody
         wStore).bucket (rpFile false) = some (wStore.packs wGen.assetsRef)) ∧
     (wStore.packs wGen.dataRef ≠ [] →
       Bucket.getFile? (cache_run wGen wBucketMiss "v1" false false wBody
         wStore).bucket (dpFile false) = some (wStore.packs wGen.dataRef)) ∧
     (cache_run wGen wBucketMiss "v1" false false wBody wStore).store =
       (if false then Draft.apply wGen wStore else wStore) ∧
     (∀ d' body' ap' s', (cache_run d'
         (cache_run wGen wBucketMiss "v1" false false wBody wStore).bucket
         "v1" false ap' body' s').bodyRuns = 0)) :=
  ⟨by decide, rfl,
   C2_cache_miss_persists_draft wGen wStore wBucketMiss "v1" false false wBody
     wStore (by decide) rfl⟩
